import Mathlib

/-!
# Verification of the web-search MCP server (`servers/web-search-mcp/main.py`)

A shallow embedding of the server's dispatch loop, its four tool operations
(`web_search`, `fetch_webpage`, `extract_links`, `scrape_data`), and the
fetch-result cache, together with proofs about the specified properties.

Modelling conventions:
* JSON values decoded from the wire are `JVal`; Python `dict`s preserve
  insertion order, so objects are association lists.
* Python strings are Lean `String`s; the string operations the server uses
  (`strip`, `split`, `splitlines`, slicing, `join`) are re-implemented over
  `List Char` so that they compute by kernel reduction.
* Exceptions are explicit: code that can raise returns `Except PyExc α`.
  `try`/`except` blocks of the source become `match`es on that result.
* The network, the HTML parser (BeautifulSoup) and `urllib.parse.urljoin`
  are external collaborators.  A fetched document is abstracted as a `Page`
  carrying exactly the data the server reads from it (final URL, status,
  text content, anchors, CSS-select results, meta tags, headings);
  `urljoin` is an explicit function parameter.
* Wall-clock instants are natural numbers counting seconds; Python's
  `timedelta.seconds` (the seconds component after whole days are removed)
  is `fun d => d % 86400`.
-/

/-- A decoded JSON value (the payloads `json.loads` can produce, with
integral numbers; the server never branches on floats). -/
inductive JVal where
  | null
  | boolean (b : Bool)
  | num (n : Int)
  | str (s : String)
  | arr (xs : List JVal)
  | obj (kvs : List (String × JVal))

/-- Python truthiness (`bool(v)`) for decoded JSON values. -/
def pyTruthy : JVal → Bool
  | .null => false
  | .boolean b => b
  | .num n => n != 0
  | .str s => s != ""
  | .arr xs => !xs.isEmpty
  | .obj kvs => !kvs.isEmpty

/-- Python type name of a decoded JSON value, as it appears in error
messages. -/
def pyTypeName : JVal → String
  | .null => "NoneType"
  | .boolean _ => "bool"
  | .num _ => "int"
  | .str _ => "str"
  | .arr _ => "list"
  | .obj _ => "dict"

/-- First value bound to a key in an association list (Python `dict`s from
`json.loads` have unique keys, and insertion wins are modelled by
`dictInsert` below). -/
def jLookup : List (String × JVal) → String → Option JVal
  | [], _ => none
  | (k, v) :: rest, key => if k = key then some v else jLookup rest key

/-- `d.get(key, default)`: the bound value when the key is present (even
when that value is `None`), otherwise the default.  Non-`dict` receivers
are handled by the callers, which model the `AttributeError` explicitly. -/
def jGetD (v : JVal) (key : String) (d : JVal) : JVal :=
  match v with
  | .obj kvs => (jLookup kvs key).getD d
  | _ => d

/-- `dict` insertion: overwriting keeps the original position, a fresh key
is appended (CPython insertion-order semantics). -/
def dictInsert {α : Type} (d : List (String × α)) (k : String) (v : α) :
    List (String × α) :=
  if d.any (fun kv => kv.1 = k) then
    d.map (fun kv => if kv.1 = k then (k, v) else kv)
  else d ++ [(k, v)]

/-- Python exceptions the modelled code can raise or observe.  `timeout`
is `asyncio.TimeoutError` (whose `str` is empty); the others carry their
`str(e)` rendering. -/
inductive PyExc where
  | timeout
  | typeError (msg : String)
  | attributeError (msg : String)
  | keyError (msg : String)
  | exc (msg : String)

/-- `str(e)` of an exception, as interpolated by `send_error`. -/
def pyStrExc : PyExc → String
  | .timeout => ""
  | .typeError m => m
  | .attributeError m => m
  | .keyError m => m
  | .exc m => m

/-- `request[key]` on an arbitrary decoded value: a `KeyError` on a `dict`
missing the key, a `TypeError` on non-subscriptable values. -/
def pyIndexStr (v : JVal) (key : String) : Except PyExc JVal :=
  match v with
  | .obj kvs =>
    match jLookup kvs key with
    | some x => .ok x
    | none => .error (.keyError ("'" ++ key ++ "'"))
  | .arr _ => .error (.typeError "list indices must be integers or slices, not str")
  | .str _ => .error (.typeError "string indices must be integers")
  | .num _ => .error (.typeError "'int' object is not subscriptable")
  | .boolean _ => .error (.typeError "'bool' object is not subscriptable")
  | .null => .error (.typeError "'NoneType' object is not subscriptable")

/-- `min(v, m)` where `m` is an `int` and `v` came from JSON: numbers and
booleans compare (a `bool` is an `int` in Python), everything else raises
the `TypeError` that CPython's `min` produces when it evaluates `m < v`. -/
def pyMinInt (v : JVal) (m : Int) : Except PyExc Int :=
  match v with
  | .num n => .ok (min n m)
  | .boolean b => .ok (min (if b then (1 : Int) else 0) m)
  | x => .error (.typeError
      ("'<' not supported between instances of 'int' and '" ++ pyTypeName x ++ "'"))

/-- Concatenate strings with a separator (`sep.join(...)`). -/
def joinWith (sep : String) : List String → String
  | [] => ""
  | [x] => x
  | x :: rest => x ++ sep ++ joinWith sep rest

/-- `str(v)` / `repr(v)` with structural fuel on the nesting depth (the
fuel-exhausted arms are dead code for every value a JSON document of
depth below the bound can produce). -/
def pyReprF : Nat → JVal → String
  | _, .null => "None"
  | _, .boolean true => "True"
  | _, .boolean false => "False"
  | _, .num n => toString n
  | _, .str s => "'" ++ s ++ "'"
  | 0, .arr _ => ""
  | 0, .obj _ => ""
  | f + 1, .arr xs => "[" ++ joinWith ", " (xs.map (pyReprF f)) ++ "]"
  | f + 1, .obj kvs =>
      "\x7b" ++ joinWith ", " (kvs.map (fun kv => "'" ++ kv.1 ++ "': " ++ pyReprF f kv.2)) ++ "\x7d"

/-- Python `repr` of a decoded JSON value. -/
def pyRepr (v : JVal) : String := pyReprF 1000000 v

/-- Python `str` of a decoded JSON value (`str` of a string is itself,
containers render via `repr`), as used by f-string interpolation. -/
def pyStr : JVal → String
  | .str s => s
  | v => pyRepr v

/-! ## Python string operations, over `List Char` so they kernel-reduce -/

/-- The characters Python `str.strip()` removes. -/
def pyWSChar (c : Char) : Bool :=
  c == ' ' || c == '\t' || c == '\n' || c == '\r' || c == '\x0b' || c == '\x0c'

/-- `s.strip()`. -/
def pyStrip (s : String) : String :=
  String.mk (((s.data.dropWhile pyWSChar).reverse.dropWhile pyWSChar).reverse)

/-- Whether the second list begins with the first. -/
def listStarts : List Char → List Char → Bool
  | [], _ => true
  | _ :: _, [] => false
  | a :: as, b :: bs => a == b && listStarts as bs

/-- `s.startswith(p)`. -/
def pyStartsWith (s p : String) : Bool := listStarts p.data s.data

/-- Worker for `str.split(sep)` with a non-empty separator; `fuel` is
consumed one character (at least) per step, so `s.length + 1` suffices. -/
def splitOnGo (sep : List Char) : Nat → List Char → List Char → List (List Char)
  | _, [], acc => [acc.reverse]
  | 0, s, acc => [acc.reverse ++ s]
  | fuel + 1, c :: rest, acc =>
    if sep ≠ [] && listStarts sep (c :: rest) then
      acc.reverse :: splitOnGo sep fuel ((c :: rest).drop sep.length) []
    else
      splitOnGo sep fuel rest (c :: acc)

/-- `s.split(sep)` for a non-empty literal separator (Python semantics:
adjacent separators produce empty fields). -/
def pySplit (s sep : String) : List String :=
  (splitOnGo sep.data (s.data.length + 1) s.data []).map String.mk

/-- `sub in s` (substring containment). -/
def pyContains (s sub : String) : Bool := (pySplit s sub).length ≥ 2

/-- Worker for `s.splitlines()` over the line boundaries the server's
documents use (`\n`, `\r`, `\r\n`): a terminator closes the current line
and no trailing empty line is produced. -/
def pySplitlinesGo : List Char → List Char → List (List Char)
  | [], acc => if acc.isEmpty then [] else [acc.reverse]
  | '\r' :: '\n' :: rest, acc => acc.reverse :: pySplitlinesGo rest []
  | '\r' :: rest, acc => acc.reverse :: pySplitlinesGo rest []
  | '\n' :: rest, acc => acc.reverse :: pySplitlinesGo rest []
  | c :: rest, acc => pySplitlinesGo rest (c :: acc)

/-- `s.splitlines()`. -/
def pySplitlines (s : String) : List String :=
  (pySplitlinesGo s.data []).map String.mk

/-- Python slicing `s[:n]` (by code point). -/
def pyTake (s : String) (n : Nat) : String := String.mk (s.data.take n)

/-- The text-normalisation pipeline of `fetch_webpage` (main.py lines
219-222): split the document text into lines, strip each, split each line
at runs of two spaces, strip the phrases, and join the non-empty chunks
with single spaces. -/
def normalizeText (raw : String) : String :=
  let lines := (pySplitlines raw).map pyStrip
  let chunks := (lines.map (fun line => (pySplit line "  ").map pyStrip)).flatten
  joinWith " " (chunks.filter (fun c => c != ""))

/-! ## `urllib.parse` collaborators

`urlparse` component extraction and `unquote` are Python standard-library
collaborators; they are modelled here for the URL shapes the server
handles (`unquote` decodes each `%XX` pair as one code point, which agrees
with CPython on the ASCII targets the redirect wrapper carries). -/

/-- Split at the first occurrence of a character: `(before, after)`. -/
def splitFirstChar (s : String) (c : Char) : Option (String × String) :=
  match pySplit s (String.mk [c]) with
  | [] => none
  | [_] => none
  | h :: t => some (h, joinWith (String.mk [c]) t)

/-- Valid scheme characters after the first (letters, digits, `+`, `-`, `.`). -/
def schemeChar (c : Char) : Bool :=
  c.isAlpha || c.isDigit || c == '+' || c == '-' || c == '.'

/-- Split a leading `scheme:` off a URL as `urlparse` does: the part
before the first `:` must start with a letter and consist of scheme
characters; the scheme is lowercased. -/
def schemeSplit (u : String) : String × String :=
  match splitFirstChar u ':' with
  | some (sc, rest) =>
    match sc.data with
    | [] => ("", u)
    | c0 :: more =>
      if c0.isAlpha && more.all schemeChar then (String.mk (sc.data.map Char.toLower), rest)
      else ("", u)
  | none => ("", u)

/-- `urlparse(u).scheme`. -/
def urlparseScheme (u : String) : String := (schemeSplit u).1

/-- `urlparse(u).netloc`: what follows `//` (after an optional scheme) up
to the next `/`, `?` or `#`; empty when the URL has no authority part. -/
def urlparseNetloc (u : String) : String :=
  let rest := (schemeSplit u).2
  if pyStartsWith rest "//" then
    String.mk ((rest.data.drop 2).takeWhile (fun c => c != '/' && c != '?' && c != '#'))
  else ""

/-- `urlparse(u).query`: what follows the first `?` of the defragmented
URL. -/
def urlparseQuery (u : String) : String :=
  let noFrag := match splitFirstChar u '#' with
    | some (before, _) => before
    | none => u
  match splitFirstChar noFrag '?' with
  | some (_, after) => after
  | none => ""

/-- Hex digit value, by code point: `0`-`9` are 48-57, `A`-`F` 65-70,
`a`-`f` 97-102. -/
def hexVal (c : Char) : Option Nat :=
  let n := c.toNat
  if 48 ≤ n && n ≤ 57 then some (n - 48)
  else if 65 ≤ n && n ≤ 70 then some (n - 55)
  else if 97 ≤ n && n ≤ 102 then some (n - 87)
  else none

/-- Percent-decoding worker: `%XX` with hex digits becomes one character,
anything else is copied. -/
def unquoteChars : List Char → List Char
  | [] => []
  | '%' :: a :: b :: rest =>
    match hexVal a, hexVal b with
    | some ha, some hb => Char.ofNat (16 * ha + hb) :: unquoteChars rest
    | _, _ => '%' :: unquoteChars (a :: b :: rest)
  | c :: rest => c :: unquoteChars rest

/-- `urllib.parse.unquote`. -/
def pyUnquote (s : String) : String := String.mk (unquoteChars s.data)

/-- The redirect-decoding of `web_search` (main.py lines 148-153): a
DuckDuckGo wrapper URL is unwrapped by URL-decoding the `uddg` query
parameter; on any other shape the URL is returned as-is. -/
def decodeDdgUrl (url : String) : String :=
  if pyStartsWith url "//duckduckgo.com/l/" then
    let q := urlparseQuery url
    if pyContains q "uddg=" then
      pyUnquote ((pySplit ((pySplit q "uddg=").getD 1 "") "&").headD "")
    else url
  else url

/-! ## The fetched-document model -/

/-- An HTML element as the server reads it: its stripped text
(`get_text(strip=True)`) and its attribute mapping (`elem.get(name)`). -/
structure Element where
  stripText : String
  attrs : List (String × String)

/-- `elem.get(name)`. -/
def Element.attr (e : Element) (name : String) : Option String :=
  match e.attrs.find? (fun kv => kv.1 == name) with
  | some kv => some kv.2
  | none => none

/-- A `<meta>` tag as `fetch_webpage` reads it. -/
structure MetaTag where
  nameAttr : Option String
  propAttr : Option String
  content : Option String

/-- One DuckDuckGo result block (`div.result`) as `web_search` reads it:
the optional `a.result__a` title element (stripped text and `href`, the
latter defaulting to `''` via `get('href','')`) and the optional
`a.result__snippet` stripped text. -/
structure SearchBlock where
  title : Option (String × String)
  snippet : Option String

/-- A successfully retrieved and parsed response: the data the server
extracts from the HTTP response object and the BeautifulSoup document.
`rawText` is `soup.get_text()` after `script`/`style` decomposition;
`select` is the soupsieve CSS-selection collaborator (total here: its
exceptions on malformed selector strings are not modelled); `anchors`
lists every `a[href]` in document order as `(href, stripped text)`. -/
structure Page where
  finalUrl : String
  status : Int
  contentType : String
  rawText : String
  anchors : List (String × String)
  select : String → List Element
  titleTag : Option String
  metas : List MetaTag
  h1s : List String
  h2s : List String
  blocks : List SearchBlock

/-- Outcome of the one network call a tool operation makes. -/
inductive NetResult where
  | ok (page : Page)
  | timeout
  | exc (msg : String)

/-- A tool result record: `{success: true, ...fields}` or
`{success: false, error: msg}`. -/
inductive TR (α : Type) where
  | ok (r : α)
  | fail (error : String)

/-- What running one tool coroutine produces: a normal return or an
escaped exception, plus how many network calls were made. -/
structure Run (α : Type) where
  out : Except PyExc α
  netCalls : Nat

/-! ## `web_search` (main.py lines 109-176) -/

/-- BeautifulSoup's `find_all(..., limit=n)` bound: a falsy (zero) limit
means no limit; a negative limit stops after the first hit (the length
check runs after each append). -/
def bs4Limit {α : Type} (xs : List α) (limit : Int) : List α :=
  if limit = 0 then xs
  else if limit < 0 then xs.take 1
  else xs.take limit.toNat

/-- One entry of `results` in a `web_search` success record. -/
structure SearchResult where
  title : String
  url : String
  snippet : String
  source : String

/-- The result-block loop of `web_search` (lines 140-162): blocks without
an `a.result__a` element are skipped, redirect-wrapper hrefs are decoded,
a missing snippet element yields `''`. -/
def parseBlocks (blocks : List SearchBlock) : List SearchResult :=
  blocks.filterMap fun b =>
    match b.title with
    | some (t, href) =>
      some { title := t, url := decodeDdgUrl href,
             snippet := b.snippet.getD "", source := "DuckDuckGo" }
    | none => none

/-- A `web_search` success record. -/
structure SearchRes where
  query : JVal
  results : List SearchResult
  count : Nat

/-- `web_search(params)`.  `query = params.get('query', '')` and
`max_results = min(params.get('maxResults', 10), 20)` run before the
`query` validation and before the `try` block, so a non-numeric
`maxResults` raises out of the coroutine. -/
def webSearch (params : JVal) (net : NetResult) : Run (TR SearchRes) :=
  match params with
  | .obj _ =>
    let query := jGetD params "query" (.str "")
    match pyMinInt (jGetD params "maxResults" (.num 10)) 20 with
    | .error e => ⟨.error e, 0⟩
    | .ok maxResults =>
      if !pyTruthy query then ⟨.ok (.fail "Query parameter is required"), 0⟩
      else
        match net with
        | .ok page =>
          let results := parseBlocks (bs4Limit page.blocks maxResults)
          ⟨.ok (.ok ⟨query, results, results.length⟩), 1⟩
        | .timeout => ⟨.ok (.fail (pyStrExc .timeout)), 1⟩
        | .exc m => ⟨.ok (.fail m), 1⟩
  | bad =>
    ⟨.error (.attributeError ("'" ++ pyTypeName bad ++ "' object has no attribute 'get'")), 0⟩

/-! ## `fetch_webpage` (main.py lines 178-266) and the result cache -/

/-- A value of the `metadata` dict: meta-tag content strings, the title,
or the `headings` sub-record. -/
inductive MetaVal where
  | s (v : String)
  | headings (h1 h2 : List String)

/-- A `fetch_webpage` success record. -/
structure FetchOk where
  url : String
  statusCode : Int
  contentType : String
  text : Option String
  textLength : Option Nat
  metadata : Option (List (String × MetaVal))

/-- The in-memory cache `self.cache`: key to `(stored-at, result)`. -/
abbrev Cache := List (String × (Nat × FetchOk))

/-- First binding of a key in a generic association list. -/
def assocGet {α : Type} : List (String × α) → String → Option α
  | [], _ => none
  | (k, v) :: rest, key => if k = key then some v else assocGet rest key

/-- `self.cache_ttl` (main.py line 42): 300 seconds. -/
def cacheTtl : Nat := 300

/-- Python's `timedelta.seconds` on a duration of `d` whole seconds: the
seconds component after whole days are removed — NOT the total seconds. -/
def timedeltaSeconds (d : Nat) : Nat := d % 86400

/-- Python `a or b` over optional strings (`meta.get('name') or
meta.get('property')`). -/
def strOr (a b : Option String) : Option String :=
  match a with
  | some s => if s != "" then some s else b
  | none => b

/-- The metadata extraction of `fetch_webpage` (lines 227-249): the
stripped title text when a `<title>` exists, then `name`/`property` →
`content` for each meta tag with truthy name and content (later
occurrences overwrite), then the `headings` record with at most five
`h1` and five `h2` texts. -/
def buildMetadata (p : Page) : List (String × MetaVal) :=
  let m0 : List (String × MetaVal) :=
    match p.titleTag with
    | some t => [("title", .s t)]
    | none => []
  let m1 := p.metas.foldl (fun acc mt =>
    match strOr mt.nameAttr mt.propAttr, mt.content with
    | some n, some co =>
      if n != "" && co != "" then dictInsert acc n (.s co) else acc
    | _, _ => acc) m0
  dictInsert m1 "headings" (.headings (p.h1s.take 5) (p.h2s.take 5))

/-- What one `fetch_webpage` call produces: its outcome, the cache after
the call, and the number of network calls made. -/
structure FetchOut where
  out : Except PyExc (TR FetchOk)
  cache : Cache
  netCalls : Nat

/-- The `try` body of `fetch_webpage` (lines 199-266): one GET, then the
text pipeline (truncate to 10000 characters, report the untruncated
length), then metadata, then the cache write — which only a success
reaches.  A timeout is answered with `"Request timeout"`, any other
failure with its message; neither touches the cache. -/
def fetchFresh (c : Cache) (now : Nat) (cacheKey : String)
    (extractText extractMetadata : JVal) (net : NetResult) : FetchOut :=
  match net with
  | .timeout => ⟨.ok (.fail "Request timeout"), c, 1⟩
  | .exc m => ⟨.ok (.fail m), c, 1⟩
  | .ok page =>
    let base : FetchOk :=
      { url := page.finalUrl, statusCode := page.status,
        contentType := page.contentType,
        text := none, textLength := none, metadata := none }
    let r1 :=
      if pyTruthy extractText then
        let full := normalizeText page.rawText
        { base with text := some (pyTake full 10000), textLength := some full.length }
      else base
    let r2 :=
      if pyTruthy extractMetadata then { r1 with metadata := some (buildMetadata page) }
      else r1
    ⟨.ok (.ok r2), dictInsert c cacheKey (now, r2), 1⟩

/-- `fetch_webpage(params)`: validation, then the cache probe keyed by
`"fetch:" + url` — an entry whose `timedelta.seconds` age component is
below the TTL is returned verbatim with no network call — then the fresh
fetch. -/
def fetchWebpage (c : Cache) (now : Nat) (params : JVal) (net : NetResult) : FetchOut :=
  match params with
  | .obj _ =>
    let urlV := jGetD params "url" (.str "")
    let extractText := jGetD params "extractText" (.boolean true)
    let extractMetadata := jGetD params "extractMetadata" (.boolean true)
    if !pyTruthy urlV then ⟨.ok (.fail "URL parameter is required"), c, 0⟩
    else
      let cacheKey := "fetch:" ++ pyStr urlV
      match assocGet c cacheKey with
      | some (cachedTime, cachedData) =>
        if timedeltaSeconds (now - cachedTime) < cacheTtl then ⟨.ok (.ok cachedData), c, 0⟩
        else fetchFresh c now cacheKey extractText extractMetadata net
      | none => fetchFresh c now cacheKey extractText extractMetadata net
  | bad =>
    ⟨.error (.attributeError ("'" ++ pyTypeName bad ++ "' object has no attribute 'get'")), c, 0⟩

/-! ## `extract_links` (main.py lines 268-330) -/

/-- One entry of `links` in an `extract_links` success record. -/
structure LinkRec where
  url : String
  text : String
  internal : Bool
  protocol : String

/-- The anchor loop of `extract_links` (lines 292-314): resolve each
href against the final page URL with `urljoin` (`uj`), skip absolute URLs
already seen (the `seen` set grows before the internal/external filters
run), classify by netloc equality with the base, apply the filters, and
record the link with its text truncated to 100 characters. -/
def linksLoop (uj : String → String → String) (base : String)
    (intOnly extOnly : Bool) : List (String × String) → List String → List LinkRec
  | [], _ => []
  | (href, txt) :: rest, seen =>
    let absUrl := uj base href
    if absUrl ∈ seen then linksLoop uj base intOnly extOnly rest seen
    else
      let isInternal := urlparseNetloc absUrl == urlparseNetloc base
      if intOnly && !isInternal then linksLoop uj base intOnly extOnly rest (absUrl :: seen)
      else if extOnly && isInternal then linksLoop uj base intOnly extOnly rest (absUrl :: seen)
      else
        { url := absUrl, text := pyTake txt 100, internal := isInternal,
          protocol := urlparseScheme absUrl } ::
          linksLoop uj base intOnly extOnly rest (absUrl :: seen)

/-- An `extract_links` success record (`internal`/`external` are counts
over the returned link list). -/
structure LinksRes where
  url : String
  links : List LinkRec
  count : Nat
  internal : Nat
  external : Nat

/-- `extract_links(params)`.  A bare `except Exception` also catches the
timeout, whose `str` is empty. -/
def extractLinks (uj : String → String → String) (params : JVal)
    (net : NetResult) : Run (TR LinksRes) :=
  match params with
  | .obj _ =>
    let urlV := jGetD params "url" (.str "")
    let intOnly := pyTruthy (jGetD params "internalOnly" (.boolean false))
    let extOnly := pyTruthy (jGetD params "externalOnly" (.boolean false))
    if !pyTruthy urlV then ⟨.ok (.fail "URL parameter is required"), 0⟩
    else
      match net with
      | .timeout => ⟨.ok (.fail (pyStrExc .timeout)), 1⟩
      | .exc m => ⟨.ok (.fail m), 1⟩
      | .ok page =>
        let links := linksLoop uj page.finalUrl intOnly extOnly page.anchors []
        ⟨.ok (.ok
          { url := page.finalUrl, links := links, count := links.length,
            internal := (links.filter (fun l => l.internal)).length,
            external := (links.filter (fun l => !l.internal)).length }), 1⟩
  | bad =>
    ⟨.error (.attributeError ("'" ++ pyTypeName bad ++ "' object has no attribute 'get'")), 0⟩

/-! ## `scrape_data` (main.py lines 332-392) -/

/-- The value extraction for one record-form field (lines 373-376): with
a truthy `attribute`, the attribute values that are present and truthy
(an unhashable attribute key raises at `elem.get`; a hashable non-string
key is on no element); otherwise the stripped texts. -/
def scrapeValues (els : List Element) (attrV : JVal) : Except PyExc (List String) :=
  if pyTruthy attrV then
    match attrV with
    | .str a => .ok (els.filterMap (fun e =>
        match e.attr a with
        | some v => if v != "" then some v else none
        | none => none))
    | .arr _ => .error (.typeError "unhashable type: 'list'")
    | .obj _ => .error (.typeError "unhashable type: 'dict'")
    | _ => .ok []
  else .ok (els.map (fun e => e.stripText))

/-- What one field of the `selectors` mapping contributes (lines
358-378): `none` when the field is omitted from the output.  A bare
string selects stripped texts; a record form may redirect to an
attribute and may collapse to the first value when `single` is truthy
AND at least one value survived; configurations of any other type are
skipped silently.  (Selector strings soupsieve would reject are
abstracted into the total `sel` collaborator; a non-string `selector`
value raises at `soup.select`.) -/
def scrapeField (sel : String → List Element) (cfg : JVal) :
    Except PyExc (Option JVal) :=
  match cfg with
  | .str s =>
    let els := sel s
    if els.isEmpty then .ok none
    else .ok (some (.arr (els.map (fun e => JVal.str e.stripText))))
  | .obj _ =>
    match jGetD cfg "selector" (.str "") with
    | .str s =>
      let attrV := jGetD cfg "attribute" .null
      let singleV := jGetD cfg "single" (.boolean false)
      let els := sel s
      if els.isEmpty then .ok none
      else
        match scrapeValues els attrV with
        | .error e => .error e
        | .ok values =>
          .ok (some (if pyTruthy singleV && !values.isEmpty then .str (values.headD "")
                     else .arr (values.map JVal.str)))
    | badSel =>
      .error (.typeError ("expected a CSS selector string, got " ++ pyTypeName badSel))
  | _ => .ok none

/-- The field loop of `scrape_data`: fields are processed in mapping
order; a raise aborts the whole loop (and the enclosing `try` turns it
into a failure record). -/
def scrapeItems (sel : String → List Element) :
    List (String × JVal) → List (String × JVal) → Except PyExc (List (String × JVal))
  | [], acc => .ok acc
  | (k, cfg) :: rest, acc =>
    match scrapeField sel cfg with
    | .error e => .error e
    | .ok none => scrapeItems sel rest acc
    | .ok (some v) => scrapeItems sel rest (dictInsert acc k v)

/-- A `scrape_data` success record (`url` echoes the raw parameter). -/
structure ScrapeRes where
  url : JVal
  data : List (String × JVal)
  fieldsExtracted : Nat

/-- `scrape_data(params)`: both validations, the GET, then the field
loop; `selectors.items()` on a truthy non-dict raises inside the `try`
and becomes a failure record. -/
def scrapeData (params : JVal) (net : NetResult) : Run (TR ScrapeRes) :=
  match params with
  | .obj _ =>
    let urlV := jGetD params "url" (.str "")
    let selsV := jGetD params "selectors" (.obj [])
    if !pyTruthy urlV then ⟨.ok (.fail "URL parameter is required"), 0⟩
    else if !pyTruthy selsV then ⟨.ok (.fail "Selectors parameter is required"), 0⟩
    else
      match net with
      | .timeout => ⟨.ok (.fail (pyStrExc .timeout)), 1⟩
      | .exc m => ⟨.ok (.fail m), 1⟩
      | .ok page =>
        match selsV with
        | .obj items =>
          match scrapeItems page.select items [] with
          | .ok fields => ⟨.ok (.ok ⟨urlV, fields, fields.length⟩), 1⟩
          | .error e => ⟨.ok (.fail (pyStrExc e)), 1⟩
        | badSels =>
          ⟨.ok (.fail ("'" ++ pyTypeName badSels ++ "' object has no attribute 'items'")), 1⟩
  | bad =>
    ⟨.error (.attributeError ("'" ++ pyTypeName bad ++ "' object has no attribute 'get'")), 0⟩

/-! ## The dispatch loop (`handle_message`, `run`; main.py lines 394-477) -/

/-- A tool result as wrapped into a `tool_response`. -/
inductive ToolResultV where
  | search (r : TR SearchRes)
  | fetchR (r : TR FetchOk)
  | links (r : TR LinksRes)
  | scrape (r : TR ScrapeRes)

/-- A response written to stdout by `handle_message` (`send_response` /
`send_error`); `error` carries `error.code` and `error.message`. -/
inductive Response where
  | toolResponse (requestId : JVal) (tool : String) (result : ToolResultV)
  | toolsList (requestId : JVal) (tools : List (String × String))
  | pong (requestId : JVal) (timestamp : Nat)
  | error (requestId : JVal) (code : String) (message : String)

/-- The `requestId` field of a response. -/
def Response.requestId : Response → JVal
  | .toolResponse rid _ _ => rid
  | .toolsList rid _ => rid
  | .pong rid _ => rid
  | .error rid _ _ => rid

/-- The registered tool names, in registration order (lines 56-59). -/
def toolNames : List String := ["webSearch", "fetchWebpage", "extractLinks", "scrapeData"]

/-- The static tool descriptions (lines 85-90). -/
def toolDescriptions : List (String × String) :=
  [("webSearch", "Search the web using DuckDuckGo (no API key required)"),
   ("fetchWebpage", "Fetch and parse webpage content"),
   ("extractLinks", "Extract all links from a webpage"),
   ("scrapeData", "Scrape structured data from a webpage using CSS selectors")]

/-- What handling one message produces: the responses actually printed
(in order), the cache afterwards, the network calls made, the tool
handlers invoked, and — when `handle_message` itself lets an exception
escape — that exception as `fault`. -/
structure HandleOut where
  responses : List Response
  cache : Cache
  netCalls : Nat
  toolCalls : List String
  fault : Option PyExc

/-- The `TypeError` that `json.dumps` (inside `send_response`, line 95)
raises when `send_error` (line 105) puts a caught exception's
`__traceback__` — a traceback object, not JSON-serialisable — into the
response's `details` field.  A *fresh* `Exception(...)` that was never
raised has `__traceback__ = None`, which serialises as `null`, so only
`send_error` calls on raised-and-caught exceptions crash this way; the
crash happens before `print` runs, so nothing is emitted, and the
`TypeError` escapes `handle_message` (it is thrown from inside the
`except` handler), terminating the read loop. -/
def sendErrorCrash : PyExc :=
  .typeError "Object of type traceback is not JSON serializable"

/-- Wrap a tool run that does not touch the cache: a normal return
becomes a `tool_response` with the request's id; an escaped exception is
caught by the outer `except Exception`, whose `send_error(e)` then
crashes serialising `e.__traceback__` — no response is emitted and the
`json.dumps` `TypeError` escapes `handle_message`. -/
def wrapRun {α : Type} (c : Cache) (rid : JVal) (name : String)
    (inj : TR α → ToolResultV) (r : Run (TR α)) : HandleOut :=
  match r.out with
  | .ok tr => ⟨[.toolResponse rid name (inj tr)], c, r.netCalls, [name], none⟩
  | .error _ => ⟨[], c, r.netCalls, [name], some sendErrorCrash⟩

/-- The `type == 'tool'` branch (lines 400-417): look the name up in
`self.tools` (a `dict` keyed by the four registered names — an
unhashable name raises at `.get`, lands in the outer handler, and its
`send_error` crashes on the traceback), emit the `Unknown tool` error
for an unknown name (a fresh `Exception`, so its `send_error` succeeds),
otherwise invoke the handler on `params` (defaulting to `{}`) and wrap
its result. -/
def dispatchTool (uj : String → String → String) (c : Cache) (now : Nat)
    (req : JVal) (net : NetResult) : HandleOut :=
  let rid := jGetD req "id" .null
  let paramsV := jGetD req "params" (.obj [])
  match jGetD req "tool" .null with
  | .arr _ => ⟨[], c, 0, [], some sendErrorCrash⟩
  | .obj _ => ⟨[], c, 0, [], some sendErrorCrash⟩
  | .str s =>
    if s = "webSearch" then wrapRun c rid s ToolResultV.search (webSearch paramsV net)
    else if s = "fetchWebpage" then
      match fetchWebpage c now paramsV net with
      | ⟨.ok tr, c2, n⟩ => ⟨[.toolResponse rid s (.fetchR tr)], c2, n, [s], none⟩
      | ⟨.error _, c2, n⟩ => ⟨[], c2, n, [s], some sendErrorCrash⟩
    else if s = "extractLinks" then wrapRun c rid s ToolResultV.links (extractLinks uj paramsV net)
    else if s = "scrapeData" then wrapRun c rid s ToolResultV.scrape (scrapeData paramsV net)
    else ⟨[.error rid "INTERNAL_ERROR" ("Unknown tool: " ++ s)], c, 0, [], none⟩
  | other => ⟨[.error rid "INTERNAL_ERROR" ("Unknown tool: " ++ pyStr other)], c, 0, [], none⟩

/-- `handle_message` after `json.loads` succeeded (lines 397-443): route
on `request['type']` — whose own `KeyError`/`TypeError` lands in the
outer `except Exception`, where `send_error` crashes on the traceback,
emitting nothing — then the `tool` / `list_tools` / `ping` /
unknown-type branches (the latter's fresh `Exception` serialises fine). -/
def handleDecoded (uj : String → String → String) (c : Cache) (now : Nat)
    (req : JVal) (net : NetResult) : HandleOut :=
  match pyIndexStr req "type" with
  | .error _ => ⟨[], c, 0, [], some sendErrorCrash⟩
  | .ok tv =>
    match tv with
    | .str "tool" =>
      if pyTruthy (jGetD req "tool" .null) then dispatchTool uj c now req net
      else
        ⟨[.error (jGetD req "id" .null) "INTERNAL_ERROR"
            ("Unknown request type: " ++ pyStr (JVal.str "tool"))], c, 0, [], none⟩
    | .str "list_tools" =>
      ⟨[.toolsList (jGetD req "id" .null) toolDescriptions], c, 0, [], none⟩
    | .str "ping" =>
      ⟨[.pong (jGetD req "id" .null) now], c, 0, [], none⟩
    | other =>
      ⟨[.error (jGetD req "id" .null) "INTERNAL_ERROR"
          ("Unknown request type: " ++ pyStr other)], c, 0, [], none⟩

/-- One non-empty input line: either a line `json.loads` rejects (the
decoder's message, carried as data for the record, though the crashing
`send_error` never renders it) or a decoded value. -/
inductive Msg where
  | undecodable (errMsg : String)
  | decoded (v : JVal)

/-- `handle_message` (lines 394-450): a decode failure reaches
`send_error(e)` with the raised `JSONDecodeError`, whose traceback makes
`json.dumps` crash — no response, fault escapes; everything else goes
through `handleDecoded`. -/
def handleMessage (uj : String → String → String) (c : Cache) (now : Nat)
    (m : Msg) (net : NetResult) : HandleOut :=
  match m with
  | .undecodable _ => ⟨[], c, 0, [], some sendErrorCrash⟩
  | .decoded v => handleDecoded uj c now v net

/-- The read loop of `run` (lines 465-472): messages are handled one at
a time, strictly in order, each to completion (all of its responses
emitted) before the next line is read; the cache persists across
messages.  An exception escaping `handle_message` is not caught by the
loop (only `KeyboardInterrupt` is), so it ends the loop — the `finally`
runs `shutdown()` and the process exits — and no later message is read
or answered. -/
def runLoop (uj : String → String → String) (c : Cache) :
    List (Msg × NetResult × Nat) → List Response
  | [] => []
  | (m, net, now) :: rest =>
    let h := handleMessage uj c now m net
    match h.fault with
    | some _ => h.responses
    | none => h.responses ++ runLoop uj h.cache rest

/-! ## Shared concrete instances for witnesses -/

/-- A concrete stand-in for the `urljoin` collaborator in closed
evaluations: returns the href unchanged. -/
def ujId : String → String → String := fun _ href => href

/-- A cached fetch result used by the C1 evaluation. -/
def c1Entry : FetchOk :=
  { url := "https://e.com/", statusCode := 200, contentType := "text/html",
    text := none, textLength := none, metadata := none }

/-- A cache holding `c1Entry` for `https://e.com/`, stored at time 0. -/
def c1Cache : Cache := [("fetch:https://e.com/", (0, c1Entry))]

/-- A `fetch_webpage` params mapping for `https://e.com/`. -/
def c1Params : JVal := .obj [("url", .str "https://e.com/")]

/-- A concrete empty page for closed evaluations. -/
def emptyPage : Page :=
  { finalUrl := "https://e.com/", status := 200, contentType := "text/html",
    rawText := "", anchors := [], select := fun _ => [],
    titleTag := none, metas := [], h1s := [], h2s := [], blocks := [] }

/-- A concrete page with text content for closed evaluations. -/
def c8Page : Page :=
  { emptyPage with rawText := " Widget  shop \n\n Buy  widgets  here " }

/-- A concrete page with anchors (one duplicate href, one relative) for
the C4 witness. -/
def c4Page : Page :=
  { emptyPage with
      anchors := [("https://a.com/x", "first"), ("https://a.com/x", "again"),
                  ("https://e.com/y", "same host")] }

/-- A page whose selector `a` matches one element carrying no
attributes. -/
def c5Page : Page :=
  { emptyPage with
      select := fun s => if s = "a" then [{ stripText := "x", attrs := [] }] else [] }

/-- A page for the C5 witness: selector `p` matches one element with
text `hello`, everything else matches nothing. -/
def c5wPage : Page :=
  { emptyPage with
      select := fun s => if s = "p" then [{ stripText := "hello", attrs := [] }] else [] }

/-- The selectors mapping for the C5 witness: a bare-string field that
matches, a bare-string field that does not, and a `single:true` record
field. -/
def c5wItems : List (String × JVal) :=
  [("present", .str "p"), ("absent", .str "missing"),
   ("single1", .obj [("selector", .str "p"), ("single", .boolean true)])]

/-- The per-field contributions of one scrape call, flattened in mapping
order (raising fields contribute nothing here; a raise aborts
`scrapeItems` anyway). -/
def scrapeFlat (sel : String → List Element) (items : List (String × JVal)) :
    List (String × JVal) :=
  items.filterMap (fun kc =>
    match scrapeField sel kc.2 with
    | .ok (some v) => some (kc.1, v)
    | _ => none)

/-- C1: the claim says a cache entry whose age exceeds the 300-second TTL
is treated as absent and recomputed via a new network call.  The code
tests `(datetime.now() - cached_time).seconds < self.cache_ttl`, and
`timedelta.seconds` is the seconds component after whole days are
removed, so an entry aged exactly 86400 seconds (one day, far beyond the
TTL) is served from the cache with no network call — here even though
the network would fail. -/
theorem C1_stale_cache_served :
    (fetchWebpage c1Cache 86400 c1Params (.exc "network down")).out = .ok (.ok c1Entry) ∧
    (fetchWebpage c1Cache 86400 c1Params (.exc "network down")).netCalls = 0 ∧
    cacheTtl < 86400 :=
  ⟨rfl, rfl, by decide⟩

/-- C9: a `type:"tool"` request naming a non-empty tool absent from the
registry is answered by exactly one protocol-level `error` response with
message `"Unknown tool: <name>"` echoing the request's id; no
`tool_response` is emitted, no tool handler is invoked, and no network
call is made. -/
theorem C9_unknown_tool (kvs : List (String × JVal)) (name : String)
    (uj : String → String → String) (c : Cache) (now : Nat) (net : NetResult)
    (htype : jLookup kvs "type" = some (.str "tool"))
    (htool : jLookup kvs "tool" = some (.str name))
    (hne : name ≠ "")
    (hreg : name ∉ toolNames) :
    handleDecoded uj c now (.obj kvs) net =
      ⟨[.error (jGetD (.obj kvs) "id" .null) "INTERNAL_ERROR" ("Unknown tool: " ++ name)],
        c, 0, [], none⟩ := by
  simp only [toolNames, List.mem_cons, List.mem_singleton, not_or] at hreg
  obtain ⟨h1, h2, h3, h4⟩ := hreg
  simp only [handleDecoded, pyIndexStr, htype, jGetD, htool, Option.getD_some, pyTruthy,
    ne_eq, bne_iff_ne, hne, not_false_eq_true, if_true, dispatchTool, h1, h2, h3, h4,
    if_false]

/-- C9 witness: the request `{"type":"tool","tool":"doesNotExist","id":"3"}`
is answered by the single error response `Unknown tool: doesNotExist`
with requestId `"3"`. -/
theorem C9_unknown_tool_witness :
    handleDecoded ujId [] 0
      (.obj [("type", .str "tool"), ("tool", .str "doesNotExist"), ("id", .str "3")])
      (.exc "unused") =
      ⟨[.error (.str "3") "INTERNAL_ERROR" "Unknown tool: doesNotExist"], [], 0, [], none⟩ :=
  C9_unknown_tool
    [("type", .str "tool"), ("tool", .str "doesNotExist"), ("id", .str "3")]
    "doesNotExist" ujId [] 0 (.exc "unused") rfl rfl (by decide) (by decide)

/-- C10: a `type:"tool"` request whose `tool` field is absent, null or
empty falls through the `request['type'] == 'tool' and
request.get('tool')` guard into the final `else`, so it is answered by
exactly one `error` response reading `Unknown request type: tool` (with
the request's id), not an unknown-tool error and not a `tool_response`;
no tool handler runs. -/
theorem C10_falsy_tool_field (kvs : List (String × JVal))
    (uj : String → String → String) (c : Cache) (now : Nat) (net : NetResult)
    (htype : jLookup kvs "type" = some (.str "tool"))
    (htool : pyTruthy (jGetD (.obj kvs) "tool" .null) = false) :
    handleDecoded uj c now (.obj kvs) net =
      ⟨[.error (jGetD (.obj kvs) "id" .null) "INTERNAL_ERROR" "Unknown request type: tool"],
        c, 0, [], none⟩ := by
  simp only [handleDecoded, pyIndexStr, htype, htool, Bool.false_eq_true, if_false]
  rfl

/-- C10 witness: the request `{"type":"tool","tool":null,"id":"4"}` is
answered by the single error response `Unknown request type: tool` with
requestId `"4"`. -/
theorem C10_falsy_tool_field_witness :
    handleDecoded ujId [] 0
      (.obj [("type", .str "tool"), ("tool", .null), ("id", .str "4")]) (.exc "unused") =
      ⟨[.error (.str "4") "INTERNAL_ERROR" "Unknown request type: tool"], [], 0, [], none⟩ :=
  C10_falsy_tool_field
    [("type", .str "tool"), ("tool", .null), ("id", .str "4")]
    ujId [] 0 (.exc "unused") rfl rfl

/-- C6: provided `maxResults` is absent or numeric (the input contract:
`maxResults: int`), `web_search` with a missing or empty `query` returns
`{success:false, error:"Query parameter is required"}` without any
network call; a `maxResults` above 20 processes exactly the first 20
result blocks, and an absent `maxResults` processes the first 10. -/
theorem C6_web_search_validation (kvs : List (String × JVal)) (net : NetResult)
    (hnum : ∃ i : Int, pyMinInt (jGetD (.obj kvs) "maxResults" (.num 10)) 20 = .ok i) :
    (pyTruthy (jGetD (.obj kvs) "query" (.str "")) = false →
      webSearch (.obj kvs) net = ⟨.ok (.fail "Query parameter is required"), 0⟩) ∧
    (∀ (page : Page) (n : Int),
      pyTruthy (jGetD (.obj kvs) "query" (.str "")) = true →
      jGetD (.obj kvs) "maxResults" (.num 10) = .num n → 20 < n →
      webSearch (.obj kvs) (.ok page) =
        ⟨.ok (.ok ⟨jGetD (.obj kvs) "query" (.str ""),
                   parseBlocks (page.blocks.take 20),
                   (parseBlocks (page.blocks.take 20)).length⟩), 1⟩) ∧
    (∀ page : Page,
      pyTruthy (jGetD (.obj kvs) "query" (.str "")) = true →
      jLookup kvs "maxResults" = none →
      webSearch (.obj kvs) (.ok page) =
        ⟨.ok (.ok ⟨jGetD (.obj kvs) "query" (.str ""),
                   parseBlocks (page.blocks.take 10),
                   (parseBlocks (page.blocks.take 10)).length⟩), 1⟩) := by
  obtain ⟨i, hi⟩ := hnum
  refine ⟨fun hq => ?_, fun page n hq hmr hn => ?_, fun page hq habs => ?_⟩
  · simp only [webSearch, hi, hq, Bool.not_false, if_true]
  · have hmin : min n 20 = 20 := min_eq_right (le_of_lt hn)
    have hlim : bs4Limit page.blocks (min n 20) = page.blocks.take 20 := by
      rw [hmin]; rfl
    simp only [webSearch, hmr, pyMinInt, hq, Bool.not_true, hlim]
    simp
  · have habs' : jGetD (.obj kvs) "maxResults" (.num 10) = .num 10 := by
      simp [jGetD, habs]
    have hmin : min (10 : Int) 20 = 10 := by norm_num
    have hlim : bs4Limit page.blocks (min (10 : Int) 20) = page.blocks.take 10 := by
      rw [hmin]; rfl
    simp only [webSearch, habs', pyMinInt, hq, Bool.not_true, hlim]
    simp

/-- C6 witness: with `maxResults = 25` and no query, the validation
failure is returned with zero network calls; with `query = "x"` and
`maxResults = 25` against a concrete page, the 20-block clamp applies. -/
theorem C6_web_search_validation_witness :
    webSearch (.obj [("maxResults", .num 25)]) (.exc "unused") =
      ⟨.ok (.fail "Query parameter is required"), 0⟩ ∧
    webSearch (.obj [("query", .str "x"), ("maxResults", .num 25)]) (.ok emptyPage) =
      ⟨.ok (.ok ⟨.str "x", [], 0⟩), 1⟩ :=
  ⟨(C6_web_search_validation [("maxResults", .num 25)] (.exc "unused")
      ⟨20, by simp [pyMinInt, jGetD, jLookup]⟩).1 rfl,
   (C6_web_search_validation [("query", .str "x"), ("maxResults", .num 25)]
      (.ok emptyPage) ⟨20, by simp [pyMinInt, jGetD, jLookup]⟩).2.1 emptyPage 25 rfl rfl
      (by norm_num)⟩

/-- The `try` body of `fetch_webpage` mutates the cache only on its
success path: whenever it does not end in a success record, the cache it
returns is the one it was given. -/
theorem fetchFresh_fail_cache (c : Cache) (now : Nat) (k : String) (et em : JVal)
    (net : NetResult)
    (h : (∃ m, (fetchFresh c now k et em net).out = .ok (.fail m)) ∨
         (∃ e, (fetchFresh c now k et em net).out = .error e)) :
    (fetchFresh c now k et em net).cache = c := by
  match net with
  | .timeout => rfl
  | .exc m => rfl
  | .ok page =>
    exfalso
    rcases h with ⟨m, hm⟩ | ⟨e, he⟩
    · simp only [fetchFresh] at hm
      rw [Except.ok.injEq] at hm
      exact TR.noConfusion hm
    · simp only [fetchFresh] at he
      exact Except.noConfusion he

/-- C7: a `fetch_webpage` call that does not return a success record —
a validation failure, a timeout, any transport error, or even an escaped
exception — leaves the cache exactly as it was (the cache write is the
last statement of the success path), so only successful fetches are ever
stored; and a timeout on an actual (cache-missing) fetch of a valid URL
yields `{success:false, error:"Request timeout"}`. -/
theorem C7_cache_untouched_on_failure (c : Cache) (now : Nat) (params : JVal)
    (net : NetResult) :
    (((∃ m, (fetchWebpage c now params net).out = .ok (.fail m)) ∨
      (∃ e, (fetchWebpage c now params net).out = .error e)) →
      (fetchWebpage c now params net).cache = c) ∧
    (∀ kvs, params = .obj kvs →
      pyTruthy (jGetD params "url" (.str "")) = true →
      assocGet c ("fetch:" ++ pyStr (jGetD params "url" (.str ""))) = none →
      net = .timeout →
      (fetchWebpage c now params net).out = .ok (.fail "Request timeout") ∧
      (fetchWebpage c now params net).cache = c) := by
  constructor
  · intro h
    match params with
    | .obj kvs =>
      by_cases hurl : (!pyTruthy (jGetD (JVal.obj kvs) "url" (.str ""))) = true
      · simp only [fetchWebpage, hurl, if_true]
      · rcases hget : assocGet c ("fetch:" ++ pyStr (jGetD (JVal.obj kvs) "url" (.str "")))
          with _ | ⟨t, d⟩
        · have heq : fetchWebpage c now (JVal.obj kvs) net =
              fetchFresh c now ("fetch:" ++ pyStr (jGetD (JVal.obj kvs) "url" (.str "")))
                (jGetD (JVal.obj kvs) "extractText" (.boolean true))
                (jGetD (JVal.obj kvs) "extractMetadata" (.boolean true)) net := by
            simp only [fetchWebpage, hurl, if_false, hget]
            simp
          rw [heq] at h ⊢
          exact fetchFresh_fail_cache _ _ _ _ _ _ h
        · by_cases hfresh : timedeltaSeconds (now - t) < cacheTtl
          · simp only [fetchWebpage, hurl, if_false, hget, hfresh, if_true]
            simp
          · have heq : fetchWebpage c now (JVal.obj kvs) net =
                fetchFresh c now ("fetch:" ++ pyStr (jGetD (JVal.obj kvs) "url" (.str "")))
                  (jGetD (JVal.obj kvs) "extractText" (.boolean true))
                  (jGetD (JVal.obj kvs) "extractMetadata" (.boolean true)) net := by
              simp only [fetchWebpage, hurl, if_false, hget, hfresh]
              simp
            rw [heq] at h ⊢
            exact fetchFresh_fail_cache _ _ _ _ _ _ h
    | .null => rfl
    | .boolean b => rfl
    | .num n => rfl
    | .str s => rfl
    | .arr xs => rfl
  · intro kvs hkvs hurl hmiss hnet
    subst hkvs hnet
    simp only [fetchWebpage, hurl, Bool.not_true, if_false] at hmiss ⊢
    simp only [hmiss, fetchFresh]
    exact ⟨rfl, rfl⟩

/-- C7 witness: a validation failure leaves the empty cache empty, and a
timeout on a concrete URL fetch returns the `"Request timeout"` failure. -/
theorem C7_cache_untouched_on_failure_witness :
    (fetchWebpage [] 0 (.obj []) (.exc "boom")).cache = [] ∧
    (fetchWebpage [] 0 (.obj [("url", .str "https://e.com/")]) .timeout).out =
      .ok (.fail "Request timeout") :=
  ⟨(C7_cache_untouched_on_failure [] 0 (.obj []) (.exc "boom")).1
      (Or.inl ⟨"URL parameter is required", rfl⟩),
   ((C7_cache_untouched_on_failure [] 0 (.obj [("url", .str "https://e.com/")]) .timeout).2
      [("url", .str "https://e.com/")] rfl rfl rfl rfl).1⟩

/-- C8: on an actual fetch (valid URL, no fresh cache entry) with
`extractText` enabled, the success record's `text` is the normalised page
text truncated to at most 10000 characters, it is a prefix of the full
normalised text, and `textLength` reports the full untruncated length. -/
theorem C8_text_truncation (c : Cache) (now : Nat) (kvs : List (String × JVal))
    (page : Page)
    (hurl : pyTruthy (jGetD (.obj kvs) "url" (.str "")) = true)
    (hmiss : assocGet c ("fetch:" ++ pyStr (jGetD (.obj kvs) "url" (.str ""))) = none)
    (htext : pyTruthy (jGetD (.obj kvs) "extractText" (.boolean true)) = true) :
    ∃ r : FetchOk,
      (fetchWebpage c now (.obj kvs) (.ok page)).out = .ok (.ok r) ∧
      r.text = some (pyTake (normalizeText page.rawText) 10000) ∧
      (pyTake (normalizeText page.rawText) 10000).length ≤ 10000 ∧
      (∃ rest, pyTake (normalizeText page.rawText) 10000 ++ rest
        = normalizeText page.rawText) ∧
      r.textLength = some (normalizeText page.rawText).length := by
  have hlen : (pyTake (normalizeText page.rawText) 10000).length ≤ 10000 := by
    show ((normalizeText page.rawText).data.take 10000).length ≤ 10000
    rw [List.length_take]
    exact Nat.min_le_left _ _
  have hpre : ∃ rest, pyTake (normalizeText page.rawText) 10000 ++ rest
      = normalizeText page.rawText := by
    refine ⟨String.mk ((normalizeText page.rawText).data.drop 10000), ?_⟩
    show String.mk ((normalizeText page.rawText).data.take 10000 ++ _) = _
    rw [List.take_append_drop]
  simp only [fetchWebpage, hurl, Bool.not_true, if_false, hmiss, fetchFresh, htext, if_true]
  by_cases hmeta : pyTruthy (jGetD (.obj kvs) "extractMetadata" (.boolean true)) = true
  · simp only [hmeta, if_true]
    exact ⟨_, rfl, rfl, hlen, hpre, rfl⟩
  · simp only [hmeta, if_false]
    exact ⟨_, rfl, rfl, hlen, hpre, rfl⟩

/-- C8 witness: the concrete fetch succeeds with the truncated, bounded,
length-reporting text fields. -/
theorem C8_text_truncation_witness :
    ∃ r : FetchOk,
      (fetchWebpage [] 0 (.obj [("url", .str "https://e.com/")]) (.ok c8Page)).out =
        .ok (.ok r) ∧
      r.text = some (pyTake (normalizeText c8Page.rawText) 10000) ∧
      (pyTake (normalizeText c8Page.rawText) 10000).length ≤ 10000 ∧
      (∃ rest, pyTake (normalizeText c8Page.rawText) 10000 ++ rest
        = normalizeText c8Page.rawText) ∧
      r.textLength = some (normalizeText c8Page.rawText).length :=
  C8_text_truncation [] 0 [("url", .str "https://e.com/")] c8Page rfl rfl rfl

/-- C2 counterexample: `web_search` evaluates
`min(params.get('maxResults', 10), 20)` before its `try` block, so a
non-numeric `maxResults` makes the operation raise a `TypeError` out of
the coroutine instead of returning a `{success:false, error}` record. -/
theorem C2_web_search_raises :
    (webSearch (.obj [("query", .str "news"), ("maxResults", .str "many")])
      (.exc "unused")).out =
      .error (.typeError "'<' not supported between instances of 'int' and 'str'") :=
  rfl

/-- The `try` body of `fetch_webpage` always returns (it never lets an
exception escape). -/
theorem fetchFresh_no_raise (c : Cache) (now : Nat) (k : String) (et em : JVal)
    (net : NetResult) : ∃ tr, (fetchFresh c now k et em net).out = .ok tr := by
  match net with
  | .timeout => exact ⟨_, rfl⟩
  | .exc m => exact ⟨_, rfl⟩
  | .ok page => exact ⟨_, rfl⟩

/-- C2 (amended): with a params mapping, `fetch_webpage`, `extract_links`
and `scrape_data` always return a result record rather than raising;
`web_search` can raise, but only from the `maxResults` clamp (so never
when `maxResults` is absent or numeric).  A raise IS caught by
`handle_message`'s outer `except`, but `send_error` then crashes running
`json.dumps` on the exception's traceback (lines 95 and 105), so the
request gets NO response and the `TypeError` escapes the dispatch loop:
every dispatched message either gets exactly one response and no fault,
or no response and an escaping fault — and a faulting message
terminates the read loop, so no later message is answered. -/
theorem C2_tool_failures_contained :
    (∀ (c : Cache) (now : Nat) (kvs : List (String × JVal)) (net : NetResult),
      ∃ tr, (fetchWebpage c now (.obj kvs) net).out = .ok tr) ∧
    (∀ (uj : String → String → String) (kvs : List (String × JVal)) (net : NetResult),
      ∃ tr, (extractLinks uj (.obj kvs) net).out = .ok tr) ∧
    (∀ (kvs : List (String × JVal)) (net : NetResult),
      ∃ tr, (scrapeData (.obj kvs) net).out = .ok tr) ∧
    (∀ (kvs : List (String × JVal)) (net : NetResult) (e : PyExc),
      (webSearch (.obj kvs) net).out = .error e →
      pyMinInt (jGetD (.obj kvs) "maxResults" (.num 10)) 20 = .error e) ∧
    (∀ (uj : String → String → String) (c : Cache) (now : Nat) (req : JVal)
      (net : NetResult),
      (((handleDecoded uj c now req net).responses).length = 1 ∧
        (handleDecoded uj c now req net).fault = none) ∨
      ((handleDecoded uj c now req net).responses = [] ∧
        (handleDecoded uj c now req net).fault = some sendErrorCrash)) ∧
    (∀ (uj : String → String → String) (c : Cache) (now : Nat) (m : Msg)
      (net : NetResult) (rest : List (Msg × NetResult × Nat)) (e : PyExc),
      (handleMessage uj c now m net).fault = some e →
      runLoop uj c ((m, net, now) :: rest) = (handleMessage uj c now m net).responses) := by
  refine ⟨fun c now kvs net => ?_, fun uj kvs net => ?_, fun kvs net => ?_,
    fun kvs net e he => ?_, fun uj c now req net => ?_,
    fun uj c now m net rest e hf => ?_⟩
  · simp only [fetchWebpage]
    split
    · exact ⟨_, rfl⟩
    · split
      · split
        · exact ⟨_, rfl⟩
        · exact fetchFresh_no_raise _ _ _ _ _ _
      · exact fetchFresh_no_raise _ _ _ _ _ _
  · simp only [extractLinks]
    split
    · exact ⟨_, rfl⟩
    · match net with
      | .timeout => exact ⟨_, rfl⟩
      | .exc m => exact ⟨_, rfl⟩
      | .ok page => exact ⟨_, rfl⟩
  · simp only [scrapeData]
    split
    · exact ⟨_, rfl⟩
    · split
      · exact ⟨_, rfl⟩
      · match net with
        | .timeout => exact ⟨_, rfl⟩
        | .exc m => exact ⟨_, rfl⟩
        | .ok page =>
          simp only
          split
          · split
            · exact ⟨_, rfl⟩
            · exact ⟨_, rfl⟩
          · exact ⟨_, rfl⟩
  · cases hmin : pyMinInt (jGetD (.obj kvs) "maxResults" (.num 10)) 20 with
    | error eMin =>
      simp only [webSearch, hmin] at he
      injection he with h
      exact congrArg Except.error h
    | ok i =>
      exfalso
      simp only [webSearch, hmin] at he
      by_cases hq : (!pyTruthy (jGetD (.obj kvs) "query" (.str ""))) = true
      · simp only [hq, if_true] at he
        exact Except.noConfusion he
      · simp only [hq, if_false] at he
        cases net <;> exact Except.noConfusion he
  · simp only [handleDecoded, dispatchTool, wrapRun]
    repeat' split
    all_goals first
      | exact Or.inl ⟨rfl, rfl⟩
      | exact Or.inr ⟨rfl, rfl⟩
  · simp only [runLoop, hf]

/-- C2 witness: concrete instances of the amended statement — a failing
network call still returns a record from `fetch_webpage`; a raise out of
`web_search` does come from the clamp; the dispatcher answers the
raising request with one response or crashes it with none; and a
faulting message ends the loop with nothing after it. -/
theorem C2_tool_failures_contained_witness :
    (∃ tr, (fetchWebpage [] 0 (.obj [("url", .str "https://e.com/")]) (.exc "boom")).out
      = .ok tr) ∧
    pyMinInt (jGetD (.obj [("maxResults", .str "many")]) "maxResults" (.num 10)) 20 =
      .error (.typeError "'<' not supported between instances of 'int' and 'str'") ∧
    ((((handleDecoded ujId [] 0
        (.obj [("type", .str "tool"), ("tool", .str "webSearch"),
               ("params", .obj [("maxResults", .str "many")])])
        (.exc "unused")).responses).length = 1 ∧
      (handleDecoded ujId [] 0
        (.obj [("type", .str "tool"), ("tool", .str "webSearch"),
               ("params", .obj [("maxResults", .str "many")])])
        (.exc "unused")).fault = none) ∨
     ((handleDecoded ujId [] 0
        (.obj [("type", .str "tool"), ("tool", .str "webSearch"),
               ("params", .obj [("maxResults", .str "many")])])
        (.exc "unused")).responses = [] ∧
      (handleDecoded ujId [] 0
        (.obj [("type", .str "tool"), ("tool", .str "webSearch"),
               ("params", .obj [("maxResults", .str "many")])])
        (.exc "unused")).fault = some sendErrorCrash)) ∧
    runLoop ujId []
      [(Msg.undecodable "Expecting value", .exc "unused", 0),
       (Msg.decoded (.obj [("type", .str "ping"), ("id", .str "1")]), .exc "unused", 1)]
      = [] :=
  ⟨C2_tool_failures_contained.1 [] 0 [("url", .str "https://e.com/")] (.exc "boom"),
   C2_tool_failures_contained.2.2.2.1 [("maxResults", .str "many")] (.exc "unused")
     (.typeError "'<' not supported between instances of 'int' and 'str'") rfl,
   C2_tool_failures_contained.2.2.2.2.1 ujId [] 0
     (.obj [("type", .str "tool"), ("tool", .str "webSearch"),
            ("params", .obj [("maxResults", .str "many")])])
     (.exc "unused"),
   C2_tool_failures_contained.2.2.2.2.2 ujId [] 0
     (Msg.undecodable "Expecting value") (.exc "unused")
     [(Msg.decoded (.obj [("type", .str "ping"), ("id", .str "1")]), .exc "unused", 1)]
     sendErrorCrash rfl⟩

/-- C3 counterexample: for the decodable request
`{"type":"tool","tool":"webSearch","id":"7","params":{"maxResults":[]}}`
the handler raises inside `web_search` (the pre-`try` clamp); the outer
`except Exception` calls `send_error(e)`, but `json.dumps` crashes on
the raised exception's traceback before anything is printed — so the
request is answered with ZERO responses, never one, and the escaping
`TypeError` terminates the loop. -/
theorem C3_raising_request_no_response :
    (handleDecoded ujId [] 0
      (.obj [("type", .str "tool"), ("tool", .str "webSearch"), ("id", .str "7"),
             ("params", .obj [("maxResults", .arr [])])])
      (.exc "unused")).responses = [] ∧
    (handleDecoded ujId [] 0
      (.obj [("type", .str "tool"), ("tool", .str "webSearch"), ("id", .str "7"),
             ("params", .obj [("maxResults", .arr [])])])
      (.exc "unused")).fault = some sendErrorCrash :=
  ⟨rfl, rfl⟩

/-- C3 (amended): processing one decoded message carrying a `type` field
either emits exactly one response — which then always carries the
request's id — and the loop goes on to the next line only after it, or,
when a handler raise makes `send_error` crash on the traceback, emits no
response at all and the escaping fault terminates the loop, so nothing
for any later line is emitted either. -/
theorem C3_one_response_per_request (uj : String → String → String) (c : Cache)
    (now : Nat) (kvs : List (String × JVal)) (net : NetResult) (tv : JVal)
    (htype : jLookup kvs "type" = some tv) :
    ((∃ resp, (handleDecoded uj c now (.obj kvs) net).responses = [resp] ∧
       resp.requestId = jGetD (.obj kvs) "id" .null ∧
       (handleDecoded uj c now (.obj kvs) net).fault = none) ∨
     ((handleDecoded uj c now (.obj kvs) net).responses = [] ∧
       (handleDecoded uj c now (.obj kvs) net).fault = some sendErrorCrash)) ∧
    (∀ (rest : List (Msg × NetResult × Nat)),
      (handleDecoded uj c now (.obj kvs) net).fault = none →
      runLoop uj c ((Msg.decoded (.obj kvs), net, now) :: rest) =
        (handleDecoded uj c now (.obj kvs) net).responses ++
          runLoop uj (handleDecoded uj c now (.obj kvs) net).cache rest) ∧
    (∀ (rest : List (Msg × NetResult × Nat)) (e : PyExc),
      (handleDecoded uj c now (.obj kvs) net).fault = some e →
      runLoop uj c ((Msg.decoded (.obj kvs), net, now) :: rest) =
        (handleDecoded uj c now (.obj kvs) net).responses) := by
  have hidx : pyIndexStr (.obj kvs) "type" = .ok tv := by
    simp [pyIndexStr, htype]
  refine ⟨?_, fun rest hnone => ?_, fun rest e hsome => ?_⟩
  · simp only [handleDecoded, hidx, dispatchTool, wrapRun]
    repeat' split
    all_goals
      first
      | exact Or.inl ⟨_, rfl, rfl, rfl⟩
      | exact Or.inr ⟨rfl, rfl⟩
  · simp only [runLoop, handleMessage, hnone]
  · simp only [runLoop, handleMessage, hsome]

/-- C3 witness: a concrete `ping` request takes the one-response branch
(its single `pong` echoes id `"1"` with no fault), and its loop equation
holds for an empty remainder. -/
theorem C3_one_response_per_request_witness :
    ((∃ resp,
       (handleDecoded ujId [] 5 (.obj [("type", .str "ping"), ("id", .str "1")])
         (.exc "unused")).responses = [resp] ∧
       resp.requestId = jGetD (.obj [("type", .str "ping"), ("id", .str "1")]) "id" .null ∧
       (handleDecoded ujId [] 5 (.obj [("type", .str "ping"), ("id", .str "1")])
         (.exc "unused")).fault = none) ∨
     ((handleDecoded ujId [] 5 (.obj [("type", .str "ping"), ("id", .str "1")])
         (.exc "unused")).responses = [] ∧
       (handleDecoded ujId [] 5 (.obj [("type", .str "ping"), ("id", .str "1")])
         (.exc "unused")).fault = some sendErrorCrash)) ∧
    runLoop ujId [] [(Msg.decoded (.obj [("type", .str "ping"), ("id", .str "1")]),
        NetResult.exc "unused", 5)] =
      (handleDecoded ujId [] 5 (.obj [("type", .str "ping"), ("id", .str "1")])
        (.exc "unused")).responses ++ [] :=
  ⟨(C3_one_response_per_request ujId [] 5 [("type", .str "ping"), ("id", .str "1")]
      (.exc "unused") (.str "ping") rfl).1,
   (C3_one_response_per_request ujId [] 5 [("type", .str "ping"), ("id", .str "1")]
      (.exc "unused") (.str "ping") rfl).2.1 [] rfl⟩

/-- Every link the anchor loop emits has an absolute URL outside the
`seen` set it started with. -/
theorem linksLoop_url_not_seen (uj : String → String → String) (base : String)
    (io eo : Bool) :
    ∀ (anchors : List (String × String)) (seen : List String) (l : LinkRec),
      l ∈ linksLoop uj base io eo anchors seen → l.url ∉ seen := by
  intro anchors
  induction anchors with
  | nil =>
    intro seen l h
    simp [linksLoop] at h
  | cons a rest ih =>
    intro seen l h
    obtain ⟨href, txt⟩ := a
    simp only [linksLoop] at h
    by_cases h1 : uj base href ∈ seen
    · rw [if_pos h1] at h
      exact ih seen l h
    · rw [if_neg h1] at h
      by_cases h2 : (io && !(urlparseNetloc (uj base href) == urlparseNetloc base)) = true
      · rw [if_pos h2] at h
        intro hmem
        exact ih _ l h (List.mem_cons_of_mem _ hmem)
      · rw [if_neg h2] at h
        by_cases h3 : (eo && (urlparseNetloc (uj base href) == urlparseNetloc base)) = true
        · rw [if_pos h3] at h
          intro hmem
          exact ih _ l h (List.mem_cons_of_mem _ hmem)
        · rw [if_neg h3] at h
          rcases List.mem_cons.mp h with heq | h
          · subst heq
            exact h1
          · intro hmem
            exact ih _ l h (List.mem_cons_of_mem _ hmem)

/-- The anchor loop never emits two links with the same absolute URL. -/
theorem linksLoop_nodup (uj : String → String → String) (base : String)
    (io eo : Bool) :
    ∀ (anchors : List (String × String)) (seen : List String),
      ((linksLoop uj base io eo anchors seen).map (fun l => l.url)).Nodup := by
  intro anchors
  induction anchors with
  | nil => intro seen; simp [linksLoop]
  | cons a rest ih =>
    intro seen
    obtain ⟨href, txt⟩ := a
    simp only [linksLoop]
    by_cases h1 : uj base href ∈ seen
    · rw [if_pos h1]; exact ih seen
    · rw [if_neg h1]
      by_cases h2 : (io && !(urlparseNetloc (uj base href) == urlparseNetloc base)) = true
      · rw [if_pos h2]; exact ih _
      · rw [if_neg h2]
        by_cases h3 : (eo && (urlparseNetloc (uj base href) == urlparseNetloc base)) = true
        · rw [if_pos h3]; exact ih _
        · rw [if_neg h3]
          rw [List.map_cons, List.nodup_cons]
          constructor
          · intro hmem
            obtain ⟨l, hl, hurl⟩ := List.mem_map.mp hmem
            have hnot := linksLoop_url_not_seen uj base io eo rest _ l hl
            exact hnot (hurl ▸ List.mem_cons_self _ _)
          · exact ih _

/-- Every link the anchor loop emits has text of at most 100 characters. -/
theorem linksLoop_text_le (uj : String → String → String) (base : String)
    (io eo : Bool) :
    ∀ (anchors : List (String × String)) (seen : List String) (l : LinkRec),
      l ∈ linksLoop uj base io eo anchors seen → l.text.length ≤ 100 := by
  intro anchors
  induction anchors with
  | nil =>
    intro seen l h
    simp [linksLoop] at h
  | cons a rest ih =>
    intro seen l h
    obtain ⟨href, txt⟩ := a
    simp only [linksLoop] at h
    by_cases h1 : uj base href ∈ seen
    · rw [if_pos h1] at h; exact ih seen l h
    · rw [if_neg h1] at h
      by_cases h2 : (io && !(urlparseNetloc (uj base href) == urlparseNetloc base)) = true
      · rw [if_pos h2] at h; exact ih _ l h
      · rw [if_neg h2] at h
        by_cases h3 : (eo && (urlparseNetloc (uj base href) == urlparseNetloc base)) = true
        · rw [if_pos h3] at h; exact ih _ l h
        · rw [if_neg h3] at h
          rcases List.mem_cons.mp h with heq | h
          · subst heq
            show (txt.data.take 100).length ≤ 100
            rw [List.length_take]
            exact Nat.min_le_left _ _
          · exact ih _ l h

/-- With both filters enabled, the anchor loop emits nothing: an
internal link is dropped by `externalOnly`, an external one by
`internalOnly`. -/
theorem linksLoop_both_filters (uj : String → String → String) (base : String) :
    ∀ (anchors : List (String × String)) (seen : List String),
      linksLoop uj base true true anchors seen = [] := by
  intro anchors
  induction anchors with
  | nil => intro seen; rfl
  | cons a rest ih =>
    intro seen
    obtain ⟨href, txt⟩ := a
    simp only [linksLoop]
    by_cases h1 : uj base href ∈ seen
    · rw [if_pos h1]; exact ih seen
    · rw [if_neg h1]
      by_cases hin : (urlparseNetloc (uj base href) == urlparseNetloc base) = true
      · rw [if_neg (by simp [hin]), if_pos (by simp [hin])]
        exact ih _
      · rw [if_pos (by simp [Bool.not_eq_true] at hin ⊢; simp [hin])]
        exact ih _

/-- Splitting a list by a boolean predicate preserves its length. -/
theorem length_filter_split {α : Type} (l : List α) (p : α → Bool) :
    (l.filter p).length + (l.filter (fun x => !p x)).length = l.length := by
  induction l with
  | nil => rfl
  | cons a t ih =>
    by_cases h : p a = true <;>
      simp only [List.filter, h, Bool.not_true, Bool.not_false, List.length_cons] <;>
      omega

/-- C4: a successful `extract_links` result has no two link records with
the same absolute URL (hrefs resolved against the final page URL), every
link text is at most 100 characters, `internal + external = count =
len(links)`, and enabling both filters yields zero links. -/
theorem C4_extract_links_props (uj : String → String → String)
    (kvs : List (String × JVal)) (page : Page) (net : NetResult)
    (hurl : pyTruthy (jGetD (.obj kvs) "url" (.str "")) = true)
    (hnet : net = .ok page) :
    ∃ r : LinksRes,
      (extractLinks uj (.obj kvs) net).out = .ok (.ok r) ∧
      r.links = linksLoop uj page.finalUrl
        (pyTruthy (jGetD (.obj kvs) "internalOnly" (.boolean false)))
        (pyTruthy (jGetD (.obj kvs) "externalOnly" (.boolean false)))
        page.anchors [] ∧
      (r.links.map (fun l => l.url)).Nodup ∧
      (∀ l ∈ r.links, l.text.length ≤ 100) ∧
      r.internal + r.external = r.count ∧
      r.count = r.links.length ∧
      (pyTruthy (jGetD (.obj kvs) "internalOnly" (.boolean false)) = true →
       pyTruthy (jGetD (.obj kvs) "externalOnly" (.boolean false)) = true →
       r.count = 0) := by
  subst hnet
  simp only [extractLinks, hurl, Bool.not_true, if_false]
  refine ⟨_, rfl, rfl, linksLoop_nodup uj page.finalUrl _ _ page.anchors [],
    fun l hl => linksLoop_text_le uj page.finalUrl _ _ page.anchors [] l hl,
    length_filter_split _ _, rfl, fun hio heo => ?_⟩
  show (linksLoop uj page.finalUrl _ _ page.anchors []).length = 0
  rw [hio, heo, linksLoop_both_filters uj page.finalUrl page.anchors []]
  rfl

/-- C4 witness: the concrete extraction deduplicates the repeated URL,
bounds the texts, and its counts agree; and with both filters set the
count is zero. -/
theorem C4_extract_links_props_witness :
    (∃ r : LinksRes,
      (extractLinks ujId (.obj [("url", .str "https://e.com/")]) (.ok c4Page)).out =
        .ok (.ok r) ∧
      r.links = linksLoop ujId c4Page.finalUrl false false c4Page.anchors [] ∧
      (r.links.map (fun l => l.url)).Nodup ∧
      (∀ l ∈ r.links, l.text.length ≤ 100) ∧
      r.internal + r.external = r.count ∧
      r.count = r.links.length ∧
      (false = true → false = true → r.count = 0)) ∧
    (∃ r : LinksRes,
      (extractLinks ujId
        (.obj [("url", .str "https://e.com/"), ("internalOnly", .boolean true),
               ("externalOnly", .boolean true)]) (.ok c4Page)).out = .ok (.ok r) ∧
      r.count = 0) := by
  constructor
  · exact C4_extract_links_props ujId [("url", .str "https://e.com/")] c4Page
      (.ok c4Page) rfl rfl
  · obtain ⟨r, hout, -, -, -, -, -, hzero⟩ :=
      C4_extract_links_props ujId
        [("url", .str "https://e.com/"), ("internalOnly", .boolean true),
         ("externalOnly", .boolean true)] c4Page (.ok c4Page) rfl rfl
    exact ⟨r, hout, hzero rfl rfl⟩

/-- Keys of the flattened scrape output come from the selector mapping. -/
theorem scrapeFlat_keys (sel : String → List Element) :
    ∀ (items : List (String × JVal)) (k : String),
      k ∈ (scrapeFlat sel items).map Prod.fst → k ∈ items.map Prod.fst := by
  intro items
  induction items with
  | nil => intro k h; simp [scrapeFlat] at h
  | cons kc rest ih =>
    intro k h
    obtain ⟨k0, cfg0⟩ := kc
    simp only [scrapeFlat, List.filterMap_cons] at h
    cases hf : scrapeField sel cfg0 with
    | error e =>
      rw [hf] at h
      exact List.mem_cons_of_mem _ (ih k h)
    | ok ov =>
      cases ov with
      | none =>
        rw [hf] at h
        exact List.mem_cons_of_mem _ (ih k h)
      | some v =>
        rw [hf] at h
        rw [List.map_cons] at h
        rcases List.mem_cons.mp h with heq | h'
        · exact heq ▸ List.mem_cons_self _ _
        · exact List.mem_cons_of_mem _ (ih k h')

/-- A key outside an association list's key set has no binding. -/
theorem lookup_none_of_not_mem_keys {β : Type} (k : String) :
    ∀ (l : List (String × β)), k ∉ l.map Prod.fst → List.lookup k l = none := by
  intro l
  induction l with
  | nil => intro _; rfl
  | cons kv rest ih =>
    intro h
    obtain ⟨k0, v0⟩ := kv
    rw [List.map_cons] at h
    have hne : k ≠ k0 := fun he => h (he ▸ List.mem_cons_self _ _)
    have : (k == k0) = false := beq_eq_false_iff_ne.mpr hne
    simp only [List.lookup, this]
    exact ih (fun hm => h (List.mem_cons_of_mem _ hm))

/-- With distinct keys, looking a field up in the flattened scrape
output gives exactly what `scrapeField` computed for it. -/
theorem scrapeFlat_lookup (sel : String → List Element) :
    ∀ (items : List (String × JVal)) (k : String) (cfg : JVal),
      (items.map Prod.fst).Nodup → (k, cfg) ∈ items →
      ∀ ov : Option JVal, scrapeField sel cfg = .ok ov →
      List.lookup k (scrapeFlat sel items) = ov := by
  intro items
  induction items with
  | nil => intro k cfg _ hmem; exact absurd hmem (List.not_mem_nil _)
  | cons kc rest ih =>
    intro k cfg hnd hmem ov hf
    obtain ⟨k0, cfg0⟩ := kc
    rw [List.map_cons, List.nodup_cons] at hnd
    rcases List.mem_cons.mp hmem with heq | hmem'
    · have hk : k0 = k := (Prod.mk.injEq _ _ _ _ ▸ heq).1.symm
      have hc : cfg0 = cfg := (Prod.mk.injEq _ _ _ _ ▸ heq).2.symm
      subst hk hc
      cases ov with
      | some v =>
        simp only [scrapeFlat, List.filterMap_cons, hf]
        simp [List.lookup]
      | none =>
        simp only [scrapeFlat, List.filterMap_cons, hf]
        apply lookup_none_of_not_mem_keys
        intro hmemk
        exact hnd.1 (scrapeFlat_keys sel rest k0 hmemk)
    · have hkne : k ≠ k0 := by
        intro he
        subst he
        exact hnd.1 (List.mem_map.mpr ⟨(k, cfg), hmem', rfl⟩)
      have hbeq : (k == k0) = false := beq_eq_false_iff_ne.mpr hkne
      cases hf0 : scrapeField sel cfg0 with
      | error e =>
        simp only [scrapeFlat, List.filterMap_cons, hf0]
        exact ih k cfg hnd.2 hmem' ov hf
      | ok ov0 =>
        cases ov0 with
        | none =>
          simp only [scrapeFlat, List.filterMap_cons, hf0]
          exact ih k cfg hnd.2 hmem' ov hf
        | some v0 =>
          simp only [scrapeFlat, List.filterMap_cons, hf0, List.lookup, hbeq]
          exact ih k cfg hnd.2 hmem' ov hf

/-- Running the scrape field loop from an accumulator whose keys are
disjoint from the (distinct) remaining keys appends exactly the
flattened contributions. -/
theorem scrapeItems_eq_flat (sel : String → List Element) :
    ∀ (items acc res : List (String × JVal)),
      scrapeItems sel items acc = .ok res →
      (∀ k, k ∈ acc.map Prod.fst → k ∉ items.map Prod.fst) →
      (items.map Prod.fst).Nodup →
      res = acc ++ scrapeFlat sel items := by
  intro items
  induction items with
  | nil =>
    intro acc res h _ _
    injection h with h
    rw [← h]
    simp [scrapeFlat]
  | cons kc rest ih =>
    intro acc res h hdis hnd
    obtain ⟨k, cfg⟩ := kc
    rw [List.map_cons, List.nodup_cons] at hnd
    simp only [scrapeItems] at h
    cases hf : scrapeField sel cfg with
    | error e =>
      rw [hf] at h
      exact Except.noConfusion h
    | ok ov =>
      rw [hf] at h
      cases ov with
      | none =>
        have h2 : scrapeItems sel rest acc = .ok res := h
        have hdis' : ∀ k', k' ∈ acc.map Prod.fst → k' ∉ rest.map Prod.fst := by
          intro k' hk' hmem
          exact hdis k' hk' (List.mem_cons_of_mem _ hmem)
        rw [ih acc res h2 hdis' hnd.2]
        simp [scrapeFlat, List.filterMap_cons, hf]
      | some v =>
        have h2 : scrapeItems sel rest (dictInsert acc k v) = .ok res := h
        have hkacc : ¬ acc.any (fun kv => kv.1 = k) = true := by
          intro hany
          obtain ⟨kv, hkv, heq⟩ := List.any_eq_true.mp hany
          have : k ∈ acc.map Prod.fst := by
            refine List.mem_map.mpr ⟨kv, hkv, ?_⟩
            exact of_decide_eq_true heq
          exact hdis k this (List.mem_cons_self _ _)
        have hins : dictInsert acc k v = acc ++ [(k, v)] := by
          simp only [dictInsert, if_neg hkacc]
        rw [hins] at h2
        have hdis' : ∀ k', k' ∈ (acc ++ [(k, v)]).map Prod.fst →
            k' ∉ rest.map Prod.fst := by
          intro k' hk' hmem
          rw [List.map_append] at hk'
          rcases List.mem_append.mp hk' with ha | hb
          · exact hdis k' ha (List.mem_cons_of_mem _ hmem)
          · have : k' = k := by simpa using hb
            subst this
            exact hnd.1 hmem
        rw [ih (acc ++ [(k, v)]) res h2 hdis' hnd.2]
        simp [scrapeFlat, List.filterMap_cons, hf]

/-- C5 counterexample: for the field
`{"selector":"a","attribute":"href","single":true}` the selector matches
one element (shown concretely), but that element has no `href`, so the
comprehension filter leaves no values; `single and values` is then falsy
and the code stores the empty SEQUENCE `[]` for the field — present in
`data`, and not a scalar — where the claim demands a scalar for any
`single:true` field with at least one match. -/
theorem C5_single_with_match_stores_sequence :
    (scrapeData
      (.obj [("url", .str "https://e.com/"),
             ("selectors", .obj [("f", .obj [("selector", .str "a"),
                ("attribute", .str "href"), ("single", .boolean true)])])])
      (.ok c5Page)).out =
      .ok (.ok ⟨.str "https://e.com/", [("f", .arr [])], 1⟩) ∧
    c5Page.select "a" = [{ stripText := "x", attrs := [] }] :=
  ⟨rfl, rfl⟩

/-- C5 (amended): on a successful scrape with a non-empty selectors
mapping with distinct keys: a field whose selector matches zero elements
is entirely absent from `data` (bare-string or record form alike);
`fieldsExtracted` equals the number of keys in `data`; and a record-form
field with truthy `single` holds the first extracted value as a scalar
whenever at least one value was extracted — but when elements matched
and attribute filtering left no values, the field is present with an
empty sequence instead (the behaviour the counterexample pins down). -/
theorem C5_scrape_props (kvs items res : List (String × JVal)) (page : Page)
    (hurl : pyTruthy (jGetD (.obj kvs) "url" (.str "")) = true)
    (hsel : jGetD (.obj kvs) "selectors" (.obj []) = .obj items)
    (hne : items ≠ [])
    (hkeys : (items.map Prod.fst).Nodup)
    (hrun : scrapeItems page.select items [] = .ok res) :
    ∃ r : ScrapeRes,
      (scrapeData (.obj kvs) (.ok page)).out = .ok (.ok r) ∧
      r.data = scrapeFlat page.select items ∧
      r.fieldsExtracted = r.data.length ∧
      (∀ k s, (k, .str s) ∈ items → page.select s = [] →
        List.lookup k r.data = none) ∧
      (∀ k okvs s, (k, .obj okvs) ∈ items →
        jGetD (.obj okvs) "selector" (.str "") = .str s →
        page.select s = [] →
        List.lookup k r.data = none) ∧
      (∀ k okvs s vals, (k, .obj okvs) ∈ items →
        jGetD (.obj okvs) "selector" (.str "") = .str s →
        page.select s ≠ [] →
        pyTruthy (jGetD (.obj okvs) "single" (.boolean false)) = true →
        scrapeValues (page.select s) (jGetD (.obj okvs) "attribute" .null) = .ok vals →
        vals ≠ [] →
        List.lookup k r.data = some (.str (vals.headD ""))) := by
  have hflat : res = scrapeFlat page.select items :=
    scrapeItems_eq_flat page.select items [] res hrun (by simp) hkeys
  have htr : pyTruthy (.obj items) = true := by
    match items, hne with
    | kc :: rest, _ => rfl
  refine ⟨⟨jGetD (.obj kvs) "url" (.str ""), res, res.length⟩, ?_, hflat, rfl,
    fun k s hmem hempty => ?_, fun k okvs s hmem hselr hempty => ?_,
    fun k okvs s vals hmem hselr hnonempty hsingle hvals hvne => ?_⟩
  · simp only [scrapeData, hurl, Bool.not_true, if_false, hsel, htr, hrun]
    simp
  · have hf : scrapeField page.select (.str s) = .ok none := by
      simp [scrapeField, hempty]
    rw [show (⟨jGetD (.obj kvs) "url" (.str ""), res, res.length⟩ : ScrapeRes).data
        = res from rfl, hflat]
    exact scrapeFlat_lookup page.select items k (.str s) hkeys hmem none hf
  · have hf : scrapeField page.select (.obj okvs) = .ok none := by
      simp only [scrapeField, hselr, hempty]
      rfl
    rw [show (⟨jGetD (.obj kvs) "url" (.str ""), res, res.length⟩ : ScrapeRes).data
        = res from rfl, hflat]
    exact scrapeFlat_lookup page.select items k (.obj okvs) hkeys hmem none hf
  · have hie : (page.select s).isEmpty = false := by
      match hps : page.select s, hnonempty with
      | e :: es, _ => rfl
    have hve : vals.isEmpty = false := by
      match hvs : vals, hvne with
      | v :: vs, _ => rfl
    have hf : scrapeField page.select (.obj okvs)
        = .ok (some (.str (vals.headD ""))) := by
      simp only [scrapeField, hselr, hie, Bool.false_eq_true, if_false, hvals,
        hsingle, hve, Bool.not_false, Bool.and_true, if_true]
    rw [show (⟨jGetD (.obj kvs) "url" (.str ""), res, res.length⟩ : ScrapeRes).data
        = res from rfl, hflat]
    exact scrapeFlat_lookup page.select items k (.obj okvs) hkeys hmem _ hf

/-- C5 witness: on the concrete page, the zero-match field is absent
from `data`, `fieldsExtracted` counts the keys of `data`, and the
`single:true` field holds the scalar first value. -/
theorem C5_scrape_props_witness :
    ∃ r : ScrapeRes,
      (scrapeData (.obj [("url", .str "https://e.com/"), ("selectors", .obj c5wItems)])
        (.ok c5wPage)).out = .ok (.ok r) ∧
      r.fieldsExtracted = r.data.length ∧
      List.lookup "absent" r.data = none ∧
      List.lookup "single1" r.data = some (.str "hello") := by
  obtain ⟨r, hout, hdata, hfe, hbare, hrec, hsingle⟩ :=
    C5_scrape_props [("url", .str "https://e.com/"), ("selectors", .obj c5wItems)]
      c5wItems [("present", .arr [.str "hello"]), ("single1", .str "hello")] c5wPage
      rfl rfl (fun h => List.noConfusion h) (by decide) rfl
  refine ⟨r, hout, hfe, ?_, ?_⟩
  · exact hbare "absent" "missing"
      (List.mem_cons_of_mem _ (List.mem_cons_self _ _)) rfl
  · exact hsingle "single1" [("selector", .str "p"), ("single", .boolean true)] "p"
      ["hello"]
      (List.mem_cons_of_mem _ (List.mem_cons_of_mem _ (List.mem_cons_self _ _)))
      rfl (fun h => List.noConfusion h) rfl rfl (fun h => List.noConfusion h)
